import Mathlib

/-!
Shallow embedding of the FacilityProfiling repository (FastAPI backend
`main.py`, persistence helpers `db_helper.py`, the Dash form callback in
`dashboard/app.py`, and the seeding script `create_default_user.py`),
together with theorems settling the specification claims.

Modelling conventions:
* Python strings are `String`, Python ints are `Int`, Python `None` is
  `Option.none`.
* `datetime.date` values only flow through the endpoints (parsed by
  pydantic, rendered by `.isoformat()`), so a date is carried as its ISO
  string; `isoformat` is then the identity.
* IEEE floats (latitude/longitude) only flow through unchanged, so they
  are carried as `Rat`.
* The PostgreSQL database is a pure state (`DBState`); SQL statements
  become state transformations.  PostgreSQL's `text[]` input parser — an
  external system, exercised via `CAST(:x AS TEXT[])` — is modelled by
  `pgParseTextArray` below, following the documented array-literal
  grammar (braces, comma-separated elements, whitespace trimming around
  elements, double-quoted elements, backslash escapes, unquoted `NULL`).
  The model accepts a few literals real PostgreSQL would reject
  (e.g. stray text after a closing quote), but agrees with it on every
  literal the application generates.
-/

namespace FacilityProfiling

/-! ### PostgreSQL text-array literals (`db_helper.format_array_for_postgres`
and the database's array-literal input parser) -/

/-- A Python value as it reaches `format_array_for_postgres`: a string, a
list of strings, or `None`. -/
inductive PyVal where
  | pstr (s : String)
  | plist (items : List String)
  | pnone
deriving DecidableEq

/-- Python truthiness for the values `format_array_for_postgres` receives:
`""`, `[]` and `None` are falsy. -/
def pyFalsy : PyVal → Bool
  | .pstr s => s = ""
  | .plist items => items.isEmpty
  | .pnone => true

/-- Python `sep.join(l)`. -/
def joinSep (sep : String) : List String → String
  | [] => ""
  | [x] => x
  | x :: y :: ys => x ++ sep ++ joinSep sep (y :: ys)

/-- `'"' + item.replace('"', '\\"') + '"'` — the quoting applied to string
items in the list branch of `format_array_for_postgres`. -/
def pgQuoteItem (s : String) : String :=
  "\"" ++ (s.replace "\"" "\\\"") ++ "\""

/-- `db_helper.format_array_for_postgres`: `"{}"` for falsy input, a string
wrapped in braces verbatim, or a list of (string) items quoted and joined
with `","`. -/
def format_array_for_postgres (v : PyVal) : String :=
  if pyFalsy v then "\x7b\x7d"
  else
    match v with
    | .pstr s => "\x7b" ++ s ++ "\x7d"
    | .plist items => "\x7b" ++ joinSep "," (items.map pgQuoteItem) ++ "\x7d"
    | .pnone => "\x7b\x7d"

/-- Whitespace as PostgreSQL's array scanner skips it. -/
def pgSpace (c : Char) : Bool :=
  c = ' ' || c = '\t' || c = '\n' || c = '\r' || c = '\x0b' || c = '\x0c'

/-- Strip leading and trailing array-scanner whitespace. -/
def trimPg (l : List Char) : List Char :=
  ((l.dropWhile pgSpace).reverse.dropWhile pgSpace).reverse

/-- Split the text between the braces of an array literal at top-level
commas.  `esc` records a pending backslash escape, `inQ` whether we are
inside a double-quoted section; the raw element text (quotes and escapes
included) is accumulated and later cleaned by `pgUnescape`. -/
def pgSplitElems : List Char → Bool → Bool → List Char → List (List Char)
  | [], _, _, acc => [acc.reverse]
  | c :: rest, esc, inQ, acc =>
    if esc = true then pgSplitElems rest false inQ (c :: acc)
    else if c = '"' then pgSplitElems rest false (!inQ) (c :: acc)
    else if c = '\\' then pgSplitElems rest true inQ (c :: acc)
    else if c = ',' ∧ inQ = false then acc.reverse :: pgSplitElems rest false false []
    else pgSplitElems rest false inQ (c :: acc)

/-- Remove unescaped double quotes and resolve backslash escapes, as the
array scanner does when assembling an element's text (`esc` records a
pending escape). -/
def pgUnescape : List Char → Bool → List Char
  | [], _ => []
  | c :: rest, esc =>
    if esc = true then c :: pgUnescape rest false
    else if c = '\\' then pgUnescape rest true
    else if c = '"' then pgUnescape rest false
    else c :: pgUnescape rest false

/-- ASCII uppercasing, used for the case-insensitive `NULL` keyword test. -/
def asciiUpper (c : Char) : Char :=
  if 'a' ≤ c ∧ c ≤ 'z' then Char.ofNat (c.toNat - 32) else c

/-- Case-insensitive comparison of an element's text with `NULL`. -/
def isNullLiteral (t : List Char) : Bool :=
  t.map asciiUpper = ['N', 'U', 'L', 'L']

/-- Parse one raw element of an array literal: trim surrounding whitespace,
reject an empty element, read a double-quoted element, map an unquoted
`NULL` (case-insensitive) to SQL `NULL`, and take any other run of
characters (escapes resolved) as the element text. -/
def parseElem (l : List Char) : Option (Option String) :=
  let t := trimPg l
  if t.isEmpty then none
  else if t.headD '!' = '"' then
    if t.tail ≠ [] ∧ t.tail.getLastD ' ' = '"' then
      some (some (String.mk (pgUnescape t false)))
    else none
  else if isNullLiteral t then some none
  else some (some (String.mk (pgUnescape t false)))

/-- Option-valued traversal used to assemble the parsed elements. -/
def mapMOpt (f : α → Option β) : List α → Option (List β)
  | [] => some []
  | a :: as => (f a).bind fun b => (mapMOpt f as).map fun bs => b :: bs

/-- PostgreSQL's `text[]` input conversion, as invoked by
`CAST(:x AS TEXT[])`: requires surrounding braces; an all-whitespace
interior is the empty array; otherwise the interior is split at top-level
commas and each element parsed.  `none` models a "malformed array literal"
error. -/
def pgParseTextArray (s : String) : Option (List (Option String)) :=
  let cs := s.data
  if cs.headD '!' = '{' then
    if cs.getLastD '!' = '}' then
      if 2 ≤ cs.length then
        let inner := cs.tail.dropLast
        if (trimPg inner).isEmpty then some []
        else mapMOpt parseElem (pgSplitElems inner false false [])
      else none
    else none
  else none

/-! ### Round-trip lemmas for the literals the endpoints generate -/

/-- Characters that the comma splitter passes through untouched. -/
def plainChar (c : Char) : Bool := !(c = '"' || c = '\\' || c = ',')

/-- An element string that survives the store/parse round trip verbatim:
nonempty, no quote/backslash/comma, no whitespace at either end, and not
the keyword `NULL`. -/
def elemOK (l : List Char) : Bool :=
  !l.isEmpty && !pgSpace (l.headD '!') && !pgSpace (l.reverse.headD '!') &&
  l.all plainChar && !isNullLiteral l

/-- Character-level image of `", ".join`. -/
def joinChars : List (List Char) → List Char
  | [] => []
  | [x] => x
  | x :: y :: ys => x ++ ',' :: ' ' :: joinChars (y :: ys)

theorem commaSpace_data : (", " : String).data = [',', ' '] := rfl

theorem joinSep_data (ss : List String) :
    (joinSep ", " ss).data = joinChars (ss.map String.data) := by
  match ss with
  | [] => rfl
  | [x] => rfl
  | x :: y :: ys =>
    show (x ++ ", " ++ joinSep ", " (y :: ys)).data = _
    rw [String.data_append, String.data_append, joinSep_data (y :: ys),
      commaSpace_data]
    show _ = x.data ++ ',' :: ' ' :: joinChars ((y :: ys).map String.data)
    simp

theorem plainChar_elim (c : Char) (hc : plainChar c = true) :
    ¬c = '"' ∧ ¬c = '\\' ∧ ¬c = ',' := by
  rw [plainChar] at hc
  simp only [Bool.not_eq_true', Bool.or_eq_false_iff,
    decide_eq_false_iff_not] at hc
  exact ⟨hc.1.1, hc.1.2, hc.2⟩

theorem pgSplitElems_cons_plain (c : Char) (hc : plainChar c = true)
    (rest : List Char) (inQ : Bool) (acc : List Char) :
    pgSplitElems (c :: rest) false inQ acc
      = pgSplitElems rest false inQ (c :: acc) := by
  obtain ⟨hq, hb, hcm⟩ := plainChar_elim c hc
  rw [pgSplitElems]
  simp [hq, hb, hcm]

theorem pgSplitElems_cons_comma (rest : List Char) (acc : List Char) :
    pgSplitElems (',' :: rest) false false acc
      = acc.reverse :: pgSplitElems rest false false [] := by
  rw [pgSplitElems]
  simp

theorem pgSplitElems_plain (x : List Char)
    (hx : ∀ c ∈ x, plainChar c = true) :
    ∀ l acc, pgSplitElems (x ++ l) false false acc
      = pgSplitElems l false false (x.reverse ++ acc) := by
  induction x with
  | nil => intro l acc; simp
  | cons c x' ih =>
    intro l acc
    rw [List.cons_append, pgSplitElems_cons_plain c (hx c (by simp)),
      ih (fun d hd => hx d (by simp [hd])) l (c :: acc)]
    simp [List.append_assoc]

theorem pgSplitElems_joinChars (xs : List (List Char)) :
    ∀ x acc, (∀ y ∈ x :: xs, ∀ c ∈ y, plainChar c = true) →
      pgSplitElems (joinChars (x :: xs)) false false acc
        = (acc.reverse ++ x) :: xs.map (fun y => ' ' :: y) := by
  induction xs with
  | nil =>
    intro x acc hall
    show pgSplitElems x false false acc = _
    have hstep := pgSplitElems_plain x (hall x (by simp)) [] acc
    rw [List.append_nil] at hstep
    rw [hstep, pgSplitElems]
    simp
  | cons y ys ih =>
    intro x acc hall
    show pgSplitElems (x ++ ',' :: ' ' :: joinChars (y :: ys)) false false acc = _
    rw [pgSplitElems_plain x (hall x (by simp)), pgSplitElems_cons_comma,
      pgSplitElems_cons_plain ' ' (by decide),
      ih y (' ' :: []) (fun z hz => hall z (List.mem_cons_of_mem x hz))]
    simp

theorem pgUnescape_plain (l : List Char) (h : ∀ c ∈ l, plainChar c = true) :
    pgUnescape l false = l := by
  induction l with
  | nil => rfl
  | cons c rest ih =>
    obtain ⟨hq, hb, _⟩ := plainChar_elim c (h c (by simp))
    rw [pgUnescape]
    simp [hq, hb, ih (fun d hd => h d (by simp [hd]))]

theorem trimPg_cons_space (l : List Char) : trimPg (' ' :: l) = trimPg l := by
  rw [trimPg, trimPg, List.dropWhile_cons, if_pos (by decide)]

theorem dropWhile_head_false {p : Char → Bool} :
    ∀ l : List Char, p (l.headD '!') = false → l.dropWhile p = l := by
  intro l h
  match l with
  | [] => rfl
  | c :: rest =>
    rw [List.dropWhile_cons, if_neg (by simp_all)]

/-- Decomposed form of `elemOK`. -/
theorem elemOK_elim (l : List Char) (h : elemOK l = true) :
    l.isEmpty = false ∧ pgSpace (l.headD '!') = false ∧
    pgSpace (l.reverse.headD '!') = false ∧
    (∀ c ∈ l, plainChar c = true) ∧ isNullLiteral l = false := by
  rw [elemOK] at h
  simp only [Bool.and_eq_true, Bool.not_eq_true', List.all_eq_true,
    beq_eq_false_iff_ne, ne_eq] at h
  exact ⟨h.1.1.1.1, h.1.1.1.2, h.1.1.2, h.1.2, h.2⟩

theorem trimPg_elemOK (l : List Char) (h : elemOK l = true) : trimPg l = l := by
  obtain ⟨_, hhead, hlast, _, _⟩ := elemOK_elim l h
  rw [trimPg, dropWhile_head_false l hhead, dropWhile_head_false l.reverse hlast,
    List.reverse_reverse]

theorem trimPg_nonempty (l : List Char) (hne : l ≠ [])
    (hhead : pgSpace (l.headD '!') = false) :
    (trimPg l).isEmpty = false := by
  match l with
  | c :: cs =>
    rw [trimPg, dropWhile_head_false _ hhead]
    rw [Bool.eq_false_iff, ne_eq, List.isEmpty_iff]
    intro habs
    have h1 : (c :: cs).reverse.dropWhile pgSpace = [] := by
      have := congrArg List.reverse habs
      simpa using this
    have h2 := List.dropWhile_eq_nil_iff.mp h1
    have hc : pgSpace c = true := h2 c (by simp)
    rw [show (c :: cs).headD '!' = c from rfl, hc] at hhead
    cases hhead

theorem parseElem_elemOK (l : List Char) (h : elemOK l = true) :
    parseElem l = some (some (String.mk l)) := by
  have htrim := trimPg_elemOK l h
  obtain ⟨hne, _, _, hplain, hnull⟩ := elemOK_elim l h
  have hq : ¬l.head?.getD '!' = '"' := by
    match l with
    | [] => simp [List.isEmpty] at hne
    | c :: cs =>
      obtain ⟨hq', _, _⟩ := plainChar_elim c (hplain c (by simp))
      simpa using hq'
  rw [parseElem]
  simp only [htrim]
  simp [hne, hq, hnull, pgUnescape_plain l hplain]

theorem parseElem_space (l : List Char) (h : elemOK l = true) :
    parseElem (' ' :: l) = some (some (String.mk l)) := by
  have heq : parseElem (' ' :: l) = parseElem l := by
    rw [parseElem, parseElem]
    simp only [trimPg_cons_space]
  rw [heq, parseElem_elemOK l h]

theorem joinChars_cons_ne_nil (x : List Char) (xs : List (List Char))
    (hx : x ≠ []) : joinChars (x :: xs) ≠ [] := by
  match xs with
  | [] => exact hx
  | y :: ys =>
    show x ++ ',' :: ' ' :: joinChars (y :: ys) ≠ []
    simp

theorem joinChars_cons_headD (x : List Char) (xs : List (List Char))
    (hx : x ≠ []) : (joinChars (x :: xs)).headD '!' = x.headD '!' := by
  match x, xs with
  | c :: cs, [] => rfl
  | c :: cs, y :: ys => rfl

/-- Evaluate the array parser on a well-formed braced literal. -/
theorem pgParseTextArray_wrap (j : List Char) (hj : j ≠ [])
    (hhead : pgSpace (j.headD '!') = false) :
    pgParseTextArray (String.mk ('{' :: (j ++ ['}'])))
      = mapMOpt parseElem (pgSplitElems j false false []) := by
  have c2 : ('{' :: (j ++ ['}'])).getLast?.getD '!' = '}' := by
    rw [show '{' :: (j ++ ['}'])
      = ('{' :: j) ++ ['}'] from by simp, List.getLast?_concat]
    rfl
  have c3 : 2 ≤ ('{' :: (j ++ ['}'])).length := by simp
  have c5 : ('{' :: (j ++ ['}'])).tail.dropLast = j := by
    show (j ++ ['}']).dropLast = j
    rw [List.dropLast_concat]
  have c4 : (trimPg j).isEmpty = false := trimPg_nonempty j hj hhead
  rw [pgParseTextArray]
  simp only [show (String.mk ('{' :: (j ++ ['}']))).data = '{' :: (j ++ ['}'])
    from rfl, c5]
  simp [c2, c3, c4]

/-- Round trip for the create/update endpoints' array flow: join the
selected values with `", "`, wrap via `format_array_for_postgres` (string
branch), parse as a PostgreSQL `text[]` literal — and recover exactly the
original values (no `NULL`s, original order). -/
theorem pg_roundTrip (ss : List String) (h : ∀ s ∈ ss, elemOK s.data = true) :
    pgParseTextArray (format_array_for_postgres (.pstr (joinSep ", " ss)))
      = some (ss.map Option.some) := by
  match ss with
  | [] => rfl
  | s0 :: rest =>
    have h0 : elemOK s0.data = true := h s0 (by simp)
    have hne : s0.data ≠ [] := by
      intro hnil
      rw [elemOK, hnil] at h0
      simp [List.isEmpty] at h0
    have hjoined : (joinSep ", " (s0 :: rest)).data
        = joinChars (s0.data :: rest.map String.data) := joinSep_data _
    have hjchars_ne : joinChars (s0.data :: rest.map String.data) ≠ [] :=
      joinChars_cons_ne_nil _ _ hne
    have hjne : joinSep ", " (s0 :: rest) ≠ "" := by
      intro hemp
      have : (joinSep ", " (s0 :: rest)).data = [] := by rw [hemp]
      rw [hjoined] at this
      exact hjchars_ne this
    have hfalsy : ¬pyFalsy (.pstr (joinSep ", " (s0 :: rest))) = true := by
      simp [pyFalsy, hjne]
    rw [format_array_for_postgres, if_neg hfalsy]
    have hstr : ("\x7b" ++ joinSep ", " (s0 :: rest) ++ "\x7d")
        = String.mk ('{' :: ((joinSep ", " (s0 :: rest)).data ++ ['}'])) := by
      apply String.ext
      rw [String.data_append, String.data_append]
      rfl
    show pgParseTextArray ("\x7b" ++ joinSep ", " (s0 :: rest) ++ "\x7d") = _
    rw [hstr]
    have hheadok : pgSpace ((joinSep ", " (s0 :: rest)).data.headD '!') = false := by
      rw [hjoined, joinChars_cons_headD _ _ hne]
      exact (elemOK_elim s0.data h0).2.1
    have hdatane : (joinSep ", " (s0 :: rest)).data ≠ [] := by
      rw [hjoined]; exact hjchars_ne
    rw [pgParseTextArray_wrap _ hdatane hheadok]
    rw [hjoined]
    have hall : ∀ y ∈ s0.data :: (rest.map String.data),
        ∀ c ∈ y, plainChar c = true := by
      intro y hy
      rcases List.mem_cons.mp hy with hy | hy
      · subst hy
        exact (elemOK_elim s0.data h0).2.2.2.1
      · simp only [List.mem_map] at hy
        obtain ⟨s, hs, rfl⟩ := hy
        exact (elemOK_elim s.data (h s (List.mem_cons_of_mem _ hs))).2.2.2.1
    rw [pgSplitElems_joinChars (rest.map String.data) s0.data [] hall]
    simp only [List.reverse_nil, List.nil_append]
    rw [mapMOpt, parseElem_elemOK s0.data h0]
    have hrest : mapMOpt parseElem ((rest.map String.data).map (fun y => ' ' :: y))
        = some (rest.map Option.some) := by
      clear hjoined hjne hheadok hall hjchars_ne hdatane hstr hfalsy
      induction rest with
      | nil => rfl
      | cons r rs ihr =>
        rw [List.map_cons, List.map_cons, mapMOpt,
          parseElem_space r.data (h r (by simp))]
        rw [ihr (fun s hs => h s (by
          rcases List.mem_cons.mp hs with h1 | h1
          · simp [h1]
          · simp [h1]))]
        simp [Option.bind]
    rw [hrest]
    simp [Option.bind]

/-! ### Enumerated field values (the pydantic `Literal` types of
`main.InspectionRecord`) -/

/-- `Literal["Window", "Split", "Cassette", "Duct Concealed",
"Free Standing", "Other"]`. -/
inductive Hvac where
  | window | split | cassette | ductConcealed | freeStanding | other
deriving DecidableEq

def hvacStr : Hvac → String
  | .window => "Window"
  | .split => "Split"
  | .cassette => "Cassette"
  | .ductConcealed => "Duct Concealed"
  | .freeStanding => "Free Standing"
  | .other => "Other"

/-- `Literal["110V", "220V", "380V", "480V"]`. -/
inductive Power where
  | v110 | v220 | v380 | v480
deriving DecidableEq

def powerStr : Power → String
  | .v110 => "110V"
  | .v220 => "220V"
  | .v380 => "380V"
  | .v480 => "480V"

/-- `Literal["Yes", "No"]`. -/
inductive YesNo where
  | yes | no
deriving DecidableEq

def yesNoStr : YesNo → String
  | .yes => "Yes"
  | .no => "No"

/-- `Literal["Completed", "Inprogress", "Not Applicable", "Planned"]`. -/
inductive VcpStatus where
  | completed | inprogress | notApplicable | planned
deriving DecidableEq

def vcpStr : VcpStatus → String
  | .completed => "Completed"
  | .inprogress => "Inprogress"
  | .notApplicable => "Not Applicable"
  | .planned => "Planned"

/-- `Literal["Poor", "Average", "Good", "Excellent"]`. -/
inductive CondRating where
  | poor | average | good | excellent
deriving DecidableEq

def condStr : CondRating → String
  | .poor => "Poor"
  | .average => "Average"
  | .good => "Good"
  | .excellent => "Excellent"

/-- `Literal["Obsolete", "Not Obsolete"]`. -/
inductive FireObs where
  | obsolete | notObsolete
deriving DecidableEq

def fireObsStr : FireObs → String
  | .obsolete => "Obsolete"
  | .notObsolete => "Not Obsolete"

/-! ### The pydantic request model `main.InspectionRecord`
(a value of this type is a request body that passed FastAPI validation) -/

structure InspectionRecord where
  function_location_id : String
  sap_function_location : String
  building_name : String
  building_number : String
  facility_type : String
  function : String
  macro_area : String
  micro_area : String
  proponent : String
  zone : String
  hvac_type : List Hvac
  sprinkler : YesNo
  fire_alarm : YesNo
  power_source : List Power
  vcp_status : VcpStatus
  vcp_planned_date : Option String := none
  smart_power_meter_status : YesNo
  eifs : YesNo
  eifs_installed_year : Option Int := none
  exterior_cladding_condition : CondRating
  interior_architectural_condition : CondRating
  fire_protection_system_obsolete : FireObs
  hvac_condition : Option Int := none
  electrical_condition : Option Int := none
  roofing_condition : CondRating
  water_proofing_warranty : YesNo
  water_proofing_warranty_date : Option String := none
  latitude : Option Rat := none
  longitude : Option Rat := none
  full_inspection_completed : YesNo
deriving DecidableEq

/-! ### Database rows and state (`db_helper.User`, `db_helper.Inspection`) -/

structure UserRow where
  id : Nat
  username : String
  password_hash : String
deriving DecidableEq

/-- A row of the `inspections` table: text columns hold strings, the two
`TEXT[]` columns hold arrays whose elements may be SQL `NULL`
(`Option String`), dates are ISO strings, numerics are `Option Int` /
`Option Rat`. -/
structure StoredInspection where
  id : Nat
  function_location_id : String
  sap_function_location : String
  building_name : String
  building_number : String
  facility_type : String
  function : String
  macro_area : String
  micro_area : String
  proponent : String
  zone : String
  hvac_type : List (Option String)
  sprinkler : String
  fire_alarm : String
  power_source : List (Option String)
  vcp_status : String
  vcp_planned_date : Option String
  smart_power_meter_status : String
  eifs : String
  eifs_installed_year : Option Int
  exterior_cladding_condition : String
  interior_architectural_condition : String
  fire_protection_system_obsolete : String
  hvac_condition : Option Int
  electrical_condition : Option Int
  roofing_condition : String
  water_proofing_warranty : String
  water_proofing_warranty_date : Option String
  latitude : Option Rat
  longitude : Option Rat
  full_inspection_completed : String
deriving DecidableEq

/-- The PostgreSQL database: the two tables plus their serial-id
counters. -/
structure DBState where
  users : List UserRow
  nextUserId : Nat
  inspections : List StoredInspection
  nextInspectionId : Nat
deriving DecidableEq

/-! ### Persistence helpers (`db_helper.py`) -/

/-- `db_helper.get_user`: first user with the given username. -/
def get_user (db : DBState) (username : String) : Option UserRow :=
  db.users.find? (fun u => u.username == username)

/-- `db_helper.create_user`: INSERT with the next serial id, returning the
new row. -/
def create_user (db : DBState) (username password_hash : String) :
    DBState × UserRow :=
  let u : UserRow := ⟨db.nextUserId, username, password_hash⟩
  ({ db with users := db.users ++ [u], nextUserId := db.nextUserId + 1 }, u)

/-- `db_helper.get_inspection`: first inspection with the given id. -/
def get_inspection (db : DBState) (inspection_id : Nat) :
    Option StoredInspection :=
  db.inspections.find? (fun i => i.id == inspection_id)

/-- The `inspection_data` dict as the endpoints pass it to
`create_inspection` / `update_inspection`: every scalar column value,
with the two array fields already joined to comma-separated strings by
the endpoint (`", ".join(...)`). -/
structure InspectionData where
  function_location_id : String
  sap_function_location : String
  building_name : String
  building_number : String
  facility_type : String
  function : String
  macro_area : String
  micro_area : String
  proponent : String
  zone : String
  hvac_type : PyVal
  sprinkler : String
  fire_alarm : String
  power_source : PyVal
  vcp_status : String
  vcp_planned_date : Option String
  smart_power_meter_status : String
  eifs : String
  eifs_installed_year : Option Int
  exterior_cladding_condition : String
  interior_architectural_condition : String
  fire_protection_system_obsolete : String
  hvac_condition : Option Int
  electrical_condition : Option Int
  roofing_condition : String
  water_proofing_warranty : String
  water_proofing_warranty_date : Option String
  latitude : Option Rat
  longitude : Option Rat
  full_inspection_completed : String
deriving DecidableEq

/-- The row an INSERT/UPDATE writes, given the parsed array values. -/
def dataToRow (inspection_id : Nat) (d : InspectionData)
    (hv ps : List (Option String)) : StoredInspection :=
  { id := inspection_id
    function_location_id := d.function_location_id
    sap_function_location := d.sap_function_location
    building_name := d.building_name
    building_number := d.building_number
    facility_type := d.facility_type
    function := d.function
    macro_area := d.macro_area
    micro_area := d.micro_area
    proponent := d.proponent
    zone := d.zone
    hvac_type := hv
    sprinkler := d.sprinkler
    fire_alarm := d.fire_alarm
    power_source := ps
    vcp_status := d.vcp_status
    vcp_planned_date := d.vcp_planned_date
    smart_power_meter_status := d.smart_power_meter_status
    eifs := d.eifs
    eifs_installed_year := d.eifs_installed_year
    exterior_cladding_condition := d.exterior_cladding_condition
    interior_architectural_condition := d.interior_architectural_condition
    fire_protection_system_obsolete := d.fire_protection_system_obsolete
    hvac_condition := d.hvac_condition
    electrical_condition := d.electrical_condition
    roofing_condition := d.roofing_condition
    water_proofing_warranty := d.water_proofing_warranty
    water_proofing_warranty_date := d.water_proofing_warranty_date
    latitude := d.latitude
    longitude := d.longitude
    full_inspection_completed := d.full_inspection_completed }

/-- `db_helper.create_inspection`: formats the two array fields with
`format_array_for_postgres`, INSERTs via `CAST(:x AS TEXT[])` (the
database parses the literal; a malformed literal raises, the helper
rolls back and re-raises), commits, and re-reads the new row by id.
`Except.error` carries the exception text. -/
def create_inspection (db : DBState) (d : InspectionData) :
    Except String (DBState × Option StoredInspection) :=
  match pgParseTextArray (format_array_for_postgres d.hvac_type),
      pgParseTextArray (format_array_for_postgres d.power_source) with
  | some hv, some ps =>
    let row := dataToRow db.nextInspectionId d hv ps
    let db2 := { db with inspections := db.inspections ++ [row],
                         nextInspectionId := db.nextInspectionId + 1 }
    .ok (db2, get_inspection db2 row.id)
  | _, _ => .error "malformed array literal"

/-- `db_helper.update_inspection`: UPDATE of every column of the rows
matching the id (the id column itself is not in the SET list), commit,
then re-read by id. -/
def update_inspection (db : DBState) (inspection_id : Nat)
    (d : InspectionData) :
    Except String (DBState × Option StoredInspection) :=
  match pgParseTextArray (format_array_for_postgres d.hvac_type),
      pgParseTextArray (format_array_for_postgres d.power_source) with
  | some hv, some ps =>
    let db2 := { db with inspections := db.inspections.map (fun row =>
      if row.id = inspection_id then dataToRow inspection_id d hv ps
      else row) }
    .ok (db2, get_inspection db2 inspection_id)
  | _, _ => .error "malformed array literal"

/-- `db_helper.delete_inspection`: `DELETE FROM inspections WHERE id = :id`,
commit, and return `True` — unconditionally, whether or not any row
matched. -/
def delete_inspection (db : DBState) (inspection_id : Nat) :
    DBState × Bool :=
  ({ db with inspections :=
      db.inspections.filter (fun row => row.id ≠ inspection_id) }, true)

/-! ### HTTP errors and the endpoints' blanket exception handler -/

/-- A `fastapi.HTTPException`: status code and detail string. -/
structure HTTPErr where
  status : Nat
  detail : String
deriving DecidableEq

/-- A Python exception as the endpoints can raise one: a (deliberate)
`HTTPException`, an `AttributeError`, or a database error re-raised from
`db_helper`. -/
inductive PyExc where
  | httpExc (e : HTTPErr)
  | attrErr (msg : String)
  | dbErr (msg : String)
deriving DecidableEq

/-- Python `str(e)`; for Starlette's `HTTPException` this is
`f"{status_code}: {detail}"`. -/
def excStr : PyExc → String
  | .httpExc e => toString e.status ++ ": " ++ e.detail
  | .attrErr msg => msg
  | .dbErr msg => msg

/-- The `try: ... except Exception as e: raise HTTPException(status_code=500,
detail=str(e))` wrapper every endpoint body sits in.  Because FastAPI's
`HTTPException` subclasses `Exception`, even the endpoint's own deliberate
4xx raises are caught here and re-raised as 500s. -/
def catchAllAs500 : Except PyExc α → Except HTTPErr α
  | .ok a => .ok a
  | .error e => .error ⟨500, excStr e⟩

/-- `str(e)` of the `AttributeError` raised by `db_inspection.id` when the
re-read after an INSERT/UPDATE found no row. -/
def noneIdMsg : String := "'NoneType' object has no attribute 'id'"

/-! ### Authentication (`main.py`) -/

/-- A JOSE JWT as the application uses it: the claims (`sub`, `exp` in
seconds since epoch) plus the key it was signed with — the model of the
HS256 signature is the signing key itself, so signature verification is
key equality. -/
structure JwtPayload where
  sub : Option String
  exp : Nat
deriving DecidableEq

structure JwtToken where
  payload : JwtPayload
  key : String
deriving DecidableEq

def ACCESS_TOKEN_EXPIRE_MINUTES : Nat := 60

/-- `jwt.encode(to_encode, SECRET_KEY, algorithm="HS256")`. -/
def jwtEncode (p : JwtPayload) (key : String) : JwtToken := ⟨p, key⟩

/-- `jwt.decode(token, SECRET_KEY, algorithms=["HS256"])`: raises
`JWTError` when the signature does not verify and
`ExpiredSignatureError` (a `JWTError`) when `exp < now`. -/
def jwtDecode (t : JwtToken) (key : String) (now : Nat) :
    Except Unit JwtPayload :=
  if t.key ≠ key then .error ()
  else if t.payload.exp < now then .error ()
  else .ok t.payload

/-- `main.create_access_token(data={"sub": sub})`: `expires_delta` is never
passed, so the expiry is `utcnow + ACCESS_TOKEN_EXPIRE_MINUTES` minutes.
`hashF`/`verifyF` parameters elsewhere model passlib's bcrypt
`pwd_context.hash` / `pwd_context.verify` (external library). -/
def create_access_token (secretKey : String) (now : Nat) (sub : String) :
    JwtToken :=
  jwtEncode { sub := some sub, exp := now + ACCESS_TOKEN_EXPIRE_MINUTES * 60 }
    secretKey

/-- `main.authenticate_user`: false when the username is unknown or the
password does not verify against the stored hash. -/
def authenticate_user (verifyF : String → String → Bool) (db : DBState)
    (username password : String) : Bool :=
  match get_user db username with
  | none => false
  | some user => verifyF password user.password_hash

/-- `main.get_current_user` (FastAPI dependency — runs before the endpoint
body and outside its `try`): decode the token, read the `sub` claim,
resolve the user; every failure is the same 401. -/
def get_current_user (secretKey : String) (db : DBState) (token : JwtToken)
    (now : Nat) : Except HTTPErr UserRow :=
  let credentials_exception : HTTPErr := ⟨401, "Could not validate credentials"⟩
  match jwtDecode token secretKey now with
  | .error _ => .error credentials_exception
  | .ok payload =>
    match payload.sub with
    | none => .error credentials_exception
    | some username =>
      match get_user db username with
      | none => .error credentials_exception
      | some user => .ok user

/-- `POST /register` (`main.register`): duplicate username raises
`HTTPException(400, "Username already registered")` — inside the `try`,
so the caller sees it as a 500 via `catchAllAs500`; otherwise the salted
bcrypt hash (never the plain password) is stored. -/
def register (hashF : String → String → String) (salt : String)
    (db : DBState) (username password : String) :
    DBState × Except HTTPErr String :=
  match get_user db username with
  | some _ =>
    (db, catchAllAs500 (.error (.httpExc ⟨400, "Username already registered"⟩)))
  | none =>
    let password_hash := hashF salt password
    let (db2, _) := create_user db username password_hash
    (db2, catchAllAs500 (.ok "User registered successfully."))

/-- The body of a successful `POST /login` response. -/
structure LoginResult where
  access_token : JwtToken
  token_type : String
deriving DecidableEq

/-- `POST /login` (`main.login`): bad credentials raise
`HTTPException(401, "Invalid credentials")` — again inside the `try`, so
the caller sees a 500 via `catchAllAs500`. -/
def login (verifyF : String → String → Bool) (secretKey : String)
    (db : DBState) (username password : String) (now : Nat) :
    Except HTTPErr LoginResult :=
  catchAllAs500 (
    if authenticate_user verifyF db username password = false then
      .error (.httpExc ⟨401, "Invalid credentials"⟩)
    else
      .ok { access_token := create_access_token secretKey now username,
            token_type := "bearer" })

/-! ### Inspection CRUD endpoints (`main.py`).  Each model below is the
endpoint body after the `get_current_user` dependency has succeeded; the
body's `try`/`except` is `catchAllAs500`. -/

/-- `record.dict()` plus the endpoint's
`", ".join(...)` conversion of the two multi-select lists. -/
def recordToData (r : InspectionRecord) : InspectionData :=
  { function_location_id := r.function_location_id
    sap_function_location := r.sap_function_location
    building_name := r.building_name
    building_number := r.building_number
    facility_type := r.facility_type
    function := r.function
    macro_area := r.macro_area
    micro_area := r.micro_area
    proponent := r.proponent
    zone := r.zone
    hvac_type := .pstr (joinSep ", " (r.hvac_type.map hvacStr))
    sprinkler := yesNoStr r.sprinkler
    fire_alarm := yesNoStr r.fire_alarm
    power_source := .pstr (joinSep ", " (r.power_source.map powerStr))
    vcp_status := vcpStr r.vcp_status
    vcp_planned_date := r.vcp_planned_date
    smart_power_meter_status := yesNoStr r.smart_power_meter_status
    eifs := yesNoStr r.eifs
    eifs_installed_year := r.eifs_installed_year
    exterior_cladding_condition := condStr r.exterior_cladding_condition
    interior_architectural_condition := condStr r.interior_architectural_condition
    fire_protection_system_obsolete := fireObsStr r.fire_protection_system_obsolete
    hvac_condition := r.hvac_condition
    electrical_condition := r.electrical_condition
    roofing_condition := condStr r.roofing_condition
    water_proofing_warranty := yesNoStr r.water_proofing_warranty
    water_proofing_warranty_date := r.water_proofing_warranty_date
    latitude := r.latitude
    longitude := r.longitude
    full_inspection_completed := yesNoStr r.full_inspection_completed }

/-- The body of a successful create/update response:
`{"status": ..., "id": ..., "record": record}`. -/
structure MutationResult where
  status : String
  id : Nat
  record : InspectionRecord
deriving DecidableEq

/-- `POST /inspection` (`main.create_inspection_endpoint`).  On a database
error the helper rolled back, so the state is unchanged; the INSERT
itself was committed before the re-read, so a failing
`db_inspection.id` attribute access still leaves the new row stored. -/
def create_inspection_endpoint (db : DBState) (r : InspectionRecord) :
    DBState × Except HTTPErr MutationResult :=
  match create_inspection db (recordToData r) with
  | .error e => (db, catchAllAs500 (.error (.dbErr e)))
  | .ok (db2, none) => (db2, catchAllAs500 (.error (.attrErr noneIdMsg)))
  | .ok (db2, some row) =>
    (db2, catchAllAs500 (.ok { status := "added", id := row.id, record := r }))

/-- The dict `GET /inspections/{id}` returns. -/
structure InspectionOut where
  row_number : Nat
  function_location_id : String
  sap_function_location : String
  building_name : String
  building_number : String
  facility_type : String
  function : String
  macro_area : String
  micro_area : String
  proponent : String
  zone : String
  hvac_type : List (Option String)
  sprinkler : String
  fire_alarm : String
  power_source : List (Option String)
  vcp_status : String
  vcp_planned_date : Option String
  smart_power_meter_status : String
  eifs : String
  eifs_installed_year : Option Int
  exterior_cladding_condition : String
  interior_architectural_condition : String
  fire_protection_system_obsolete : String
  hvac_condition : Option Int
  electrical_condition : Option Int
  roofing_condition : String
  water_proofing_warranty : String
  water_proofing_warranty_date : Option String
  latitude : Option Rat
  longitude : Option Rat
  full_inspection_completed : String
deriving DecidableEq

/-- The dict built from a stored row (`x.isoformat() if x else None` on the
two dates is the identity on the ISO-string model). -/
def inspectionToDict (i : StoredInspection) : InspectionOut :=
  { row_number := i.id
    function_location_id := i.function_location_id
    sap_function_location := i.sap_function_location
    building_name := i.building_name
    building_number := i.building_number
    facility_type := i.facility_type
    function := i.function
    macro_area := i.macro_area
    micro_area := i.micro_area
    proponent := i.proponent
    zone := i.zone
    hvac_type := i.hvac_type
    sprinkler := i.sprinkler
    fire_alarm := i.fire_alarm
    power_source := i.power_source
    vcp_status := i.vcp_status
    vcp_planned_date := i.vcp_planned_date
    smart_power_meter_status := i.smart_power_meter_status
    eifs := i.eifs
    eifs_installed_year := i.eifs_installed_year
    exterior_cladding_condition := i.exterior_cladding_condition
    interior_architectural_condition := i.interior_architectural_condition
    fire_protection_system_obsolete := i.fire_protection_system_obsolete
    hvac_condition := i.hvac_condition
    electrical_condition := i.electrical_condition
    roofing_condition := i.roofing_condition
    water_proofing_warranty := i.water_proofing_warranty
    water_proofing_warranty_date := i.water_proofing_warranty_date
    latitude := i.latitude
    longitude := i.longitude
    full_inspection_completed := i.full_inspection_completed }

/-- `GET /inspections/{id}` (`main.get_inspection_by_id_endpoint`): the 404
for a missing id is raised inside the `try`, so the caller sees a 500. -/
def get_inspection_by_id_endpoint (db : DBState) (inspection_id : Nat) :
    Except HTTPErr InspectionOut :=
  catchAllAs500 (
    match get_inspection db inspection_id with
    | none => .error (.httpExc ⟨404, "Inspection not found"⟩)
    | some i => .ok (inspectionToDict i))

/-- `PUT /inspection/{id}` (`main.update_inspection_endpoint`): existence
pre-check (its 404 again swallowed into a 500 by the blanket handler),
then the full-row UPDATE. -/
def update_inspection_endpoint (db : DBState) (inspection_id : Nat)
    (r : InspectionRecord) : DBState × Except HTTPErr MutationResult :=
  match get_inspection db inspection_id with
  | none =>
    (db, catchAllAs500 (.error (.httpExc ⟨404, "Inspection not found"⟩)))
  | some _ =>
    match update_inspection db inspection_id (recordToData r) with
    | .error e => (db, catchAllAs500 (.error (.dbErr e)))
    | .ok (db2, none) => (db2, catchAllAs500 (.error (.attrErr noneIdMsg)))
    | .ok (db2, some row) =>
      (db2, catchAllAs500 (.ok { status := "updated", id := row.id, record := r }))

/-- The body of a successful delete response. -/
structure DeleteResult where
  status : String
  id : Nat
deriving DecidableEq

/-- `DELETE /inspection/{id}` (`main.delete_inspection_endpoint`):
existence pre-check (404 swallowed into 500), then the helper, then a
500 if the helper reported failure. -/
def delete_inspection_endpoint (db : DBState) (inspection_id : Nat) :
    DBState × Except HTTPErr DeleteResult :=
  match get_inspection db inspection_id with
  | none =>
    (db, catchAllAs500 (.error (.httpExc ⟨404, "Inspection not found"⟩)))
  | some _ =>
    let (db2, success) := delete_inspection db inspection_id
    if success = false then
      (db2, catchAllAs500 (.error (.httpExc ⟨500, "Failed to delete inspection"⟩)))
    else
      (db2, catchAllAs500 (.ok { status := "deleted", id := inspection_id }))

/-! ### `create_default_user.py` -/

/-- `create_default_user(username, password)`: SELECT by username; if a row
exists, do nothing; otherwise hash the password and INSERT. -/
def create_default_user (hashF : String → String → String) (salt : String)
    (db : DBState) (username password : String) : DBState :=
  match get_user db username with
  | some _ => db
  | none => (create_user db username (hashF salt password)).1

/-! ### FastAPI request validation of `InspectionRecord` (pydantic) -/

/-- The raw JSON body of a create/update request before validation: every
field may be absent (`none`).  Date strings pass through (ISO-format
validation of dates is not modelled; no claim depends on it). -/
structure RawInspectionInput where
  function_location_id : Option String := none
  sap_function_location : Option String := none
  building_name : Option String := none
  building_number : Option String := none
  facility_type : Option String := none
  function : Option String := none
  macro_area : Option String := none
  micro_area : Option String := none
  proponent : Option String := none
  zone : Option String := none
  hvac_type : Option (List String) := none
  sprinkler : Option String := none
  fire_alarm : Option String := none
  power_source : Option (List String) := none
  vcp_status : Option String := none
  vcp_planned_date : Option String := none
  smart_power_meter_status : Option String := none
  eifs : Option String := none
  eifs_installed_year : Option Int := none
  exterior_cladding_condition : Option String := none
  interior_architectural_condition : Option String := none
  fire_protection_system_obsolete : Option String := none
  hvac_condition : Option Int := none
  electrical_condition : Option Int := none
  roofing_condition : Option String := none
  water_proofing_warranty : Option String := none
  water_proofing_warranty_date : Option String := none
  latitude : Option Rat := none
  longitude : Option Rat := none
  full_inspection_completed : Option String := none
deriving DecidableEq

def parseHvacStr (s : String) : Option Hvac :=
  if s = "Window" then some .window
  else if s = "Split" then some .split
  else if s = "Cassette" then some .cassette
  else if s = "Duct Concealed" then some .ductConcealed
  else if s = "Free Standing" then some .freeStanding
  else if s = "Other" then some .other
  else none

def parsePowerStr (s : String) : Option Power :=
  if s = "110V" then some .v110
  else if s = "220V" then some .v220
  else if s = "380V" then some .v380
  else if s = "480V" then some .v480
  else none

def parseYesNoStr (s : String) : Option YesNo :=
  if s = "Yes" then some .yes
  else if s = "No" then some .no
  else none

def parseVcpStr (s : String) : Option VcpStatus :=
  if s = "Completed" then some .completed
  else if s = "Inprogress" then some .inprogress
  else if s = "Not Applicable" then some .notApplicable
  else if s = "Planned" then some .planned
  else none

def parseCondStr (s : String) : Option CondRating :=
  if s = "Poor" then some .poor
  else if s = "Average" then some .average
  else if s = "Good" then some .good
  else if s = "Excellent" then some .excellent
  else none

def parseFireObsStr (s : String) : Option FireObs :=
  if s = "Obsolete" then some .obsolete
  else if s = "Not Obsolete" then some .notObsolete
  else none

/-- pydantic validation of a request body against `main.InspectionRecord`,
condition part: every non-Optional field must be present, every `Literal`
field must hold one of its enumerated values, the two multi-select fields
must be lists of enumerated values.  Plain `str` fields accept any string,
the empty string included. -/
def rawValid (raw : RawInspectionInput) : Bool :=
  raw.function_location_id.isSome &&
  raw.sap_function_location.isSome &&
  raw.building_name.isSome &&
  raw.building_number.isSome &&
  raw.facility_type.isSome &&
  raw.function.isSome &&
  raw.macro_area.isSome &&
  raw.micro_area.isSome &&
  raw.proponent.isSome &&
  raw.zone.isSome &&
  (raw.hvac_type.bind (mapMOpt parseHvacStr)).isSome &&
  (raw.sprinkler.bind parseYesNoStr).isSome &&
  (raw.fire_alarm.bind parseYesNoStr).isSome &&
  (raw.power_source.bind (mapMOpt parsePowerStr)).isSome &&
  (raw.vcp_status.bind parseVcpStr).isSome &&
  (raw.smart_power_meter_status.bind parseYesNoStr).isSome &&
  (raw.eifs.bind parseYesNoStr).isSome &&
  (raw.exterior_cladding_condition.bind parseCondStr).isSome &&
  (raw.interior_architectural_condition.bind parseCondStr).isSome &&
  (raw.fire_protection_system_obsolete.bind parseFireObsStr).isSome &&
  (raw.roofing_condition.bind parseCondStr).isSome &&
  (raw.water_proofing_warranty.bind parseYesNoStr).isSome &&
  (raw.full_inspection_completed.bind parseYesNoStr).isSome

/-- The parsed record of a raw body.  The `getD` defaults are never reached
on inputs accepted by `rawValid`; they only make the function total. -/
def rawToRecord (raw : RawInspectionInput) : InspectionRecord :=
  { function_location_id := raw.function_location_id.getD ""
    sap_function_location := raw.sap_function_location.getD ""
    building_name := raw.building_name.getD ""
    building_number := raw.building_number.getD ""
    facility_type := raw.facility_type.getD ""
    function := raw.function.getD ""
    macro_area := raw.macro_area.getD ""
    micro_area := raw.micro_area.getD ""
    proponent := raw.proponent.getD ""
    zone := raw.zone.getD ""
    hvac_type := (raw.hvac_type.getD []).filterMap parseHvacStr
    sprinkler := (raw.sprinkler.bind parseYesNoStr).getD .yes
    fire_alarm := (raw.fire_alarm.bind parseYesNoStr).getD .yes
    power_source := (raw.power_source.getD []).filterMap parsePowerStr
    vcp_status := (raw.vcp_status.bind parseVcpStr).getD .planned
    vcp_planned_date := raw.vcp_planned_date
    smart_power_meter_status :=
      (raw.smart_power_meter_status.bind parseYesNoStr).getD .yes
    eifs := (raw.eifs.bind parseYesNoStr).getD .yes
    eifs_installed_year := raw.eifs_installed_year
    exterior_cladding_condition :=
      (raw.exterior_cladding_condition.bind parseCondStr).getD .good
    interior_architectural_condition :=
      (raw.interior_architectural_condition.bind parseCondStr).getD .good
    fire_protection_system_obsolete :=
      (raw.fire_protection_system_obsolete.bind parseFireObsStr).getD .notObsolete
    hvac_condition := raw.hvac_condition
    electrical_condition := raw.electrical_condition
    roofing_condition := (raw.roofing_condition.bind parseCondStr).getD .good
    water_proofing_warranty :=
      (raw.water_proofing_warranty.bind parseYesNoStr).getD .yes
    water_proofing_warranty_date := raw.water_proofing_warranty_date
    latitude := raw.latitude
    longitude := raw.longitude
    full_inspection_completed :=
      (raw.full_inspection_completed.bind parseYesNoStr).getD .yes }

/-- FastAPI request validation: `none` is the 422 validation rejection,
issued before the endpoint body (and hence the database) is ever
reached. -/
def validateInspectionRecord (raw : RawInspectionInput) :
    Option InspectionRecord :=
  if rawValid raw then some (rawToRecord raw) else none

/-! ### The Dash add-inspection form callback
(`dashboard/app.py`, `submit_inspection`) -/

/-- The form values the callback collects (Dash `State` inputs: text and
dropdown values may be `None` or strings; the two multi-selects arrive as
lists after the callback's `or []`). -/
structure FormValues where
  function_location_id : Option String := none
  sap_function_location : Option String := none
  building_name : Option String := none
  building_number : Option String := none
  facility_type : Option String := none
  function : Option String := none
  macro_area : Option String := none
  micro_area : Option String := none
  proponent : Option String := none
  zone : Option String := none
  hvac_type : List String := []
  sprinkler : Option String := none
  fire_alarm : Option String := none
  power_source : List String := []
  vcp_status : Option String := none
  vcp_planned_date : Option String := none
  smart_power_meter_status : Option String := none
  eifs : Option String := none
  eifs_installed_year : Option Int := none
  exterior_cladding_condition : Option String := none
  interior_architectural_condition : Option String := none
  fire_protection_system_obsolete : Option String := none
  hvac_condition : Option Int := none
  electrical_condition : Option Int := none
  roofing_condition : Option String := none
  water_proofing_warranty : Option String := none
  water_proofing_warranty_date : Option String := none
  full_inspection_completed : Option String := none
  latitude : Option Rat := none
  longitude : Option Rat := none
deriving DecidableEq

/-- The callback's `required_fields` list. -/
def required_fields : List String :=
  ["function_location_id", "building_name", "facility_type",
   "sprinkler", "fire_alarm", "vcp_status", "full_inspection_completed"]

/-- `form_values.get(field)` for the required (string-valued) fields. -/
def formGet (f : FormValues) : String → Option String := fun name =>
  if name = "function_location_id" then f.function_location_id
  else if name = "building_name" then f.building_name
  else if name = "facility_type" then f.facility_type
  else if name = "sprinkler" then f.sprinkler
  else if name = "fire_alarm" then f.fire_alarm
  else if name = "vcp_status" then f.vcp_status
  else if name = "full_inspection_completed" then f.full_inspection_completed
  else none

/-- Python falsiness of an optional string (`None` and `""` are falsy). -/
def pyFalsyOptStr : Option String → Bool
  | none => true
  | some s => s = ""

/-- What `submit_inspection` does before/at the HTTP call. -/
inductive SubmitOutcome where
  /-- `n_clicks is None` or the trigger was not the submit button:
  `return "", False`. -/
  | noTrigger
  /-- No stored token: "Session expired. Please log in again." -/
  | sessionExpired
  /-- Required fields missing: the "Please fill in…" message listing them;
  the API is never called. -/
  | validationError (missing_fields : List String)
  /-- `requests.post(f"{API_BASE_URL}/inspection", json=form_values, ...)`
  with this payload. -/
  | apiPost (payload : FormValues)
deriving DecidableEq

/-- `dashboard/app.py :: submit_inspection`, up to the HTTP call. -/
def submit_inspection (clicked tokenPresent : Bool) (f : FormValues) :
    SubmitOutcome :=
  if clicked = false then .noTrigger
  else if tokenPresent = false then .sessionExpired
  else
    let missing_fields :=
      required_fields.filter (fun field => pyFalsyOptStr (formGet f field))
    if missing_fields.isEmpty = false then .validationError missing_fields
    else .apiPost f

/-! ### Shared facts and sample data for the claim theorems -/

theorem hvac_elemOK (h : Hvac) : elemOK (hvacStr h).data = true := by
  cases h <;> decide

theorem power_elemOK (p : Power) : elemOK (powerStr p).data = true := by
  cases p <;> decide

/-- The hvac multi-select round-trips through join/format/parse. -/
theorem hvacList_roundTrip (l : List Hvac) :
    pgParseTextArray (format_array_for_postgres
      (.pstr (joinSep ", " (l.map hvacStr))))
      = some ((l.map hvacStr).map Option.some) := by
  apply pg_roundTrip
  intro s hs
  simp only [List.mem_map] at hs
  obtain ⟨h, _, rfl⟩ := hs
  exact hvac_elemOK h

/-- The power multi-select round-trips through join/format/parse. -/
theorem powerList_roundTrip (l : List Power) :
    pgParseTextArray (format_array_for_postgres
      (.pstr (joinSep ", " (l.map powerStr))))
      = some ((l.map powerStr).map Option.some) := by
  apply pg_roundTrip
  intro s hs
  simp only [List.mem_map] at hs
  obtain ⟨p, _, rfl⟩ := hs
  exact power_elemOK p

theorem recordData_hvac (r : InspectionRecord) :
    pgParseTextArray (format_array_for_postgres (recordToData r).hvac_type)
      = some ((r.hvac_type.map hvacStr).map Option.some) :=
  hvacList_roundTrip r.hvac_type

theorem recordData_power (r : InspectionRecord) :
    pgParseTextArray (format_array_for_postgres (recordToData r).power_source)
      = some ((r.power_source.map powerStr).map Option.some) :=
  powerList_roundTrip r.power_source

/-- Appending a fresh element to a list `find?` misses makes `find?` hit it. -/
theorem find_snoc_fresh {α} (p : α → Bool) (l : List α) (a : α)
    (h : l.find? p = none) (hp : p a = true) : (l ++ [a]).find? p = some a := by
  rw [List.find?_append, h]
  simp [List.find?_cons_of_pos _ hp]

/-- The database state `create_inspection` leaves behind on success. -/
theorem create_inspection_ok (db : DBState) (d : InspectionData)
    (hv ps : List (Option String))
    (hhv : pgParseTextArray (format_array_for_postgres d.hvac_type) = some hv)
    (hps : pgParseTextArray (format_array_for_postgres d.power_source) = some ps) :
    create_inspection db d =
      .ok ({ db with
              inspections := db.inspections
                ++ [dataToRow db.nextInspectionId d hv ps],
              nextInspectionId := db.nextInspectionId + 1 },
        get_inspection
          { db with
            inspections := db.inspections
              ++ [dataToRow db.nextInspectionId d hv ps],
            nextInspectionId := db.nextInspectionId + 1 }
          db.nextInspectionId) := by
  rw [create_inspection.eq_def, hhv, hps]
  rfl

/-- An empty database (serial counters at 1, as PostgreSQL starts them). -/
def emptyDB : DBState := { users := [], nextUserId := 1, inspections := [], nextInspectionId := 1 }

/-- A concrete valid inspection record used by the witnesses. -/
def sampleRecord : InspectionRecord :=
  { function_location_id := "FL-100"
    sap_function_location := "SAP-7"
    building_name := "HQ"
    building_number := "B1"
    facility_type := "Office"
    function := "Admin"
    macro_area := "North"
    micro_area := "N2"
    proponent := "Ops"
    zone := "Z1"
    hvac_type := [.split, .ductConcealed]
    sprinkler := .yes
    fire_alarm := .no
    power_source := [.v110, .v220]
    vcp_status := .completed
    smart_power_meter_status := .yes
    eifs := .no
    exterior_cladding_condition := .good
    interior_architectural_condition := .average
    fire_protection_system_obsolete := .notObsolete
    roofing_condition := .excellent
    water_proofing_warranty := .yes
    full_inspection_completed := .yes }

/-! ### Claim C1 -/

/-- C1: a record accepted by the create endpoint, created and then read
back by the returned id, yields the same multi-select sets (here even the
same lists, hence order-insensitively the same), with both multi-select
fields returned as lists. -/
theorem C1_create_read_roundtrip (db : DBState) (r : InspectionRecord)
    (hfresh : get_inspection db db.nextInspectionId = none) :
    ∃ db2 out,
      create_inspection_endpoint db r
        = (db2, .ok { status := "added", id := db.nextInspectionId, record := r }) ∧
      get_inspection_by_id_endpoint db2 db.nextInspectionId = .ok out ∧
      out.hvac_type.Perm (r.hvac_type.map (fun h => some (hvacStr h))) ∧
      out.power_source.Perm (r.power_source.map (fun p => some (powerStr p))) := by
  have hco := create_inspection_ok db (recordToData r)
    ((r.hvac_type.map hvacStr).map Option.some)
    ((r.power_source.map powerStr).map Option.some)
    (recordData_hvac r) (recordData_power r)
  set row := dataToRow db.nextInspectionId (recordToData r)
    ((r.hvac_type.map hvacStr).map Option.some)
    ((r.power_source.map powerStr).map Option.some) with hrow
  set db2 : DBState := { db with
    inspections := db.inspections ++ [row],
    nextInspectionId := db.nextInspectionId + 1 } with hdb2
  have hget : get_inspection db2 db.nextInspectionId = some row := by
    show (db.inspections ++ [row]).find?
      (fun i => i.id == db.nextInspectionId) = some row
    exact find_snoc_fresh _ _ _ hfresh (by simp [hrow, dataToRow])
  have hco2 : create_inspection db (recordToData r) = .ok (db2, some row) := by
    rw [hco, hget]
  refine ⟨db2, inspectionToDict row, ?_, ?_, ?_, ?_⟩
  · rw [create_inspection_endpoint.eq_def, hco2]
    rfl
  · rw [get_inspection_by_id_endpoint.eq_def, hget]
    rfl
  · show ((r.hvac_type.map hvacStr).map Option.some).Perm _
    rw [List.map_map]
    exact List.Perm.refl _
  · show ((r.power_source.map powerStr).map Option.some).Perm _
    rw [List.map_map]
    exact List.Perm.refl _

/-- Witness for C1 at a concrete record and the empty database. -/
theorem C1_witness :
    ∃ db2 out,
      create_inspection_endpoint emptyDB sampleRecord
        = (db2, .ok { status := "added", id := 1, record := sampleRecord }) ∧
      get_inspection_by_id_endpoint db2 1 = .ok out ∧
      out.hvac_type.Perm
        (sampleRecord.hvac_type.map (fun h => some (hvacStr h))) ∧
      out.power_source.Perm
        (sampleRecord.power_source.map (fun p => some (powerStr p))) :=
  C1_create_read_roundtrip emptyDB sampleRecord rfl

/-! ### Claim C2 -/

/-- A create request whose required free-text field `building_name` is the
empty string but which is otherwise fully valid. -/
def rawEmptyBuildingName : RawInspectionInput :=
  { function_location_id := some "FL-100"
    sap_function_location := some "SAP-7"
    building_name := some ""
    building_number := some "B1"
    facility_type := some "Office"
    function := some "Admin"
    macro_area := some "North"
    micro_area := some "N2"
    proponent := some "Ops"
    zone := some "Z1"
    hvac_type := some ["Window"]
    sprinkler := some "Yes"
    fire_alarm := some "No"
    power_source := some ["110V"]
    vcp_status := some "Completed"
    smart_power_meter_status := some "Yes"
    eifs := some "No"
    exterior_cladding_condition := some "Good"
    interior_architectural_condition := some "Good"
    fire_protection_system_obsolete := some "Not Obsolete"
    roofing_condition := some "Good"
    water_proofing_warranty := some "Yes"
    full_inspection_completed := some "Yes" }

/-- Counterexample to C2 as stated: a create request with an empty
`building_name` (the claim's own example) is NOT rejected — request
validation accepts it and the create endpoint persists a row. -/
theorem C2_counterexample :
    ∃ rec, validateInspectionRecord rawEmptyBuildingName = some rec ∧
      rec.building_name = "" ∧
      (create_inspection_endpoint emptyDB rec).1.inspections.length = 1 ∧
      (create_inspection_endpoint emptyDB rec).2
        = .ok { status := "added", id := 1, record := rec } := by
  refine ⟨rawToRecord rawEmptyBuildingName, by decide, rfl, ?_, ?_⟩ <;> rfl

/-- C2 amended: a create request *missing* one of the required fields is
rejected by request validation (as is an enumerated required field set to
the empty string), and a dashboard form submission with a missing or empty
required field is rejected client-side, listing the field, before the API
is called — but (per the counterexample) an empty string in a required
free-text field passes API validation and is persisted. -/
theorem C2_amended :
    (∀ raw : RawInspectionInput,
      raw.function_location_id = none ∨ raw.building_name = none ∨
      raw.facility_type = none ∨ raw.sprinkler = none ∨
      raw.fire_alarm = none ∨ raw.vcp_status = none ∨
      raw.full_inspection_completed = none →
      validateInspectionRecord raw = none) ∧
    (∀ raw : RawInspectionInput, raw.sprinkler = some "" →
      validateInspectionRecord raw = none) ∧
    (∀ (f : FormValues) (field : String), field ∈ required_fields →
      pyFalsyOptStr (formGet f field) = true →
      ∃ missing, submit_inspection true true f = .validationError missing ∧
        field ∈ missing) := by
  refine ⟨?_, ?_, ?_⟩
  · intro raw hmiss
    rcases hmiss with h | h | h | h | h | h | h <;>
      simp [validateInspectionRecord, rawValid, h]
  · intro raw h
    simp [validateInspectionRecord, rawValid, h, parseYesNoStr, Option.bind]
  · intro f field hin hfal
    have hmem : field ∈ required_fields.filter
        (fun fl => pyFalsyOptStr (formGet f fl)) :=
      List.mem_filter.mpr ⟨hin, hfal⟩
    have hne : (required_fields.filter
        (fun fl => pyFalsyOptStr (formGet f fl))).isEmpty = false := by
      rw [Bool.eq_false_iff, ne_eq, List.isEmpty_iff]
      exact List.ne_nil_of_mem hmem
    refine ⟨required_fields.filter (fun fl => pyFalsyOptStr (formGet f fl)),
      ?_, hmem⟩
    rw [submit_inspection]
    simp [hne]

/-- Witness for C2's amended statement: a request missing `building_name`
is rejected; a form with an empty `building_name` is rejected client-side
with `building_name` among the listed fields. -/
theorem C2_amended_witness :
    validateInspectionRecord
      { rawEmptyBuildingName with building_name := none } = none ∧
    validateInspectionRecord
      { rawEmptyBuildingName with sprinkler := some "" } = none ∧
    ∃ missing,
      submit_inspection true true { building_name := some "" }
        = .validationError missing ∧ "building_name" ∈ missing := by
  refine ⟨?_, ?_, ?_⟩
  · exact C2_amended.1 _ (Or.inr (Or.inl rfl))
  · exact C2_amended.2.1 _ rfl
  · exact C2_amended.2.2 { building_name := some "" } "building_name"
      (by decide) (by decide)

/-! ### Claim C3 -/

/-- C3 against the code: after a successful `register(u, p)` — which stores
the bcrypt hash `hashF salt p` of the password, not the password — a second
`register(u, p2)` fails, but the caller sees status 500 with detail
"400: Username already registered", NOT the claimed 400: the endpoint's
blanket `except Exception` catches its own `HTTPException(400, ...)` and
re-raises it as a 500. -/
theorem C3_register_duplicate (hashF : String → String → String)
    (salt : String) (db : DBState) (u p p2 : String)
    (hnew : get_user db u = none) :
    ∃ db2,
      register hashF salt db u p = (db2, .ok "User registered successfully.") ∧
      get_user db2 u = some ⟨db.nextUserId, u, hashF salt p⟩ ∧
      register hashF salt db2 u p2
        = (db2, .error ⟨500, "400: Username already registered"⟩) := by
  set db2 : DBState := { db with
    users := db.users ++ [⟨db.nextUserId, u, hashF salt p⟩],
    nextUserId := db.nextUserId + 1 } with hdb2
  have hget2 : get_user db2 u = some ⟨db.nextUserId, u, hashF salt p⟩ :=
    find_snoc_fresh (fun x : UserRow => x.username == u) db.users
      ⟨db.nextUserId, u, hashF salt p⟩ hnew (by simp)
  refine ⟨db2, ?_, hget2, ?_⟩
  · rw [register.eq_def, hnew]
    rfl
  · rw [register.eq_def, hget2]
    rfl

/-- Witness for C3: register "alice"/"pw1" into the empty database, then
register "alice"/"pw2" again. -/
theorem C3_witness :
    ∃ db2,
      register (fun salt p => salt ++ "$" ++ p) "s1" emptyDB "alice" "pw1"
        = (db2, .ok "User registered successfully.") ∧
      get_user db2 "alice" = some ⟨1, "alice", "s1" ++ "$" ++ "pw1"⟩ ∧
      register (fun salt p => salt ++ "$" ++ p) "s1" db2 "alice" "pw2"
        = (db2, .error ⟨500, "400: Username already registered"⟩) :=
  C3_register_duplicate (fun salt p => salt ++ "$" ++ p) "s1" emptyDB
    "alice" "pw1" "pw2" rfl

/-! ### Claim C4 -/

/-- C4: `get_current_user` fails closed with 401 when the token's
signature does not verify, when the token is expired, when the payload has
no `sub` claim, or when the subject matches no user — and a token issued
by `create_access_token` authorizes calls until its expiry. -/
theorem C4_authorize (secretKey : String) (db : DBState) (now : Nat) :
    (∀ t : JwtToken, t.key ≠ secretKey →
      get_current_user secretKey db t now
        = .error ⟨401, "Could not validate credentials"⟩) ∧
    (∀ t : JwtToken, t.payload.exp < now →
      get_current_user secretKey db t now
        = .error ⟨401, "Could not validate credentials"⟩) ∧
    (∀ t : JwtToken, t.payload.sub = none →
      get_current_user secretKey db t now
        = .error ⟨401, "Could not validate credentials"⟩) ∧
    (∀ (t : JwtToken) (u : String), t.payload.sub = some u →
      get_user db u = none →
      get_current_user secretKey db t now
        = .error ⟨401, "Could not validate credentials"⟩) ∧
    (∀ (issuedAt : Nat) (u : String) (usr : UserRow),
      get_user db u = some usr →
      now ≤ (create_access_token secretKey issuedAt u).payload.exp →
      get_current_user secretKey db (create_access_token secretKey issuedAt u)
        now = .ok usr) := by
  refine ⟨?_, ?_, ?_, ?_, ?_⟩
  · intro t hkey
    rw [get_current_user.eq_def, jwtDecode, if_pos hkey]
  · intro t hexp
    by_cases hkey : t.key = secretKey
    · rw [get_current_user.eq_def, jwtDecode, if_neg (by simp [hkey]),
        if_pos hexp]
    · rw [get_current_user.eq_def, jwtDecode, if_pos hkey]
  · intro t hsub
    by_cases hkey : t.key = secretKey
    · by_cases hexp : t.payload.exp < now
      · rw [get_current_user.eq_def, jwtDecode, if_neg (by simp [hkey]),
          if_pos hexp]
      · rw [get_current_user.eq_def, jwtDecode, if_neg (by simp [hkey]),
          if_neg hexp]
        simp [hsub]
    · rw [get_current_user.eq_def, jwtDecode, if_pos hkey]
  · intro t u hsub huser
    by_cases hkey : t.key = secretKey
    · by_cases hexp : t.payload.exp < now
      · rw [get_current_user.eq_def, jwtDecode, if_neg (by simp [hkey]),
          if_pos hexp]
      · rw [get_current_user.eq_def, jwtDecode, if_neg (by simp [hkey]),
          if_neg hexp]
        simp [hsub, huser]
    · rw [get_current_user.eq_def, jwtDecode, if_pos hkey]
  · intro issuedAt u usr huser hvalid
    rw [get_current_user.eq_def, jwtDecode,
      if_neg (by simp [create_access_token, jwtEncode]),
      if_neg (by simpa using Nat.not_lt.mpr hvalid)]
    simp [create_access_token, jwtEncode, huser]

/-- A database holding one user, for the auth witnesses. -/
def userDB : DBState :=
  { users := [⟨1, "admin", "h1"⟩], nextUserId := 2, inspections := [],
    nextInspectionId := 1 }

/-- Witness for C4: each 401 case and the authorized case at concrete
tokens (secret "sk", now = 5000). -/
theorem C4_witness :
    get_current_user "sk" userDB ⟨⟨some "admin", 9000⟩, "other"⟩ 5000
      = .error ⟨401, "Could not validate credentials"⟩ ∧
    get_current_user "sk" userDB ⟨⟨some "admin", 4999⟩, "sk"⟩ 5000
      = .error ⟨401, "Could not validate credentials"⟩ ∧
    get_current_user "sk" userDB ⟨⟨none, 9000⟩, "sk"⟩ 5000
      = .error ⟨401, "Could not validate credentials"⟩ ∧
    get_current_user "sk" userDB ⟨⟨some "ghost", 9000⟩, "sk"⟩ 5000
      = .error ⟨401, "Could not validate credentials"⟩ ∧
    get_current_user "sk" userDB (create_access_token "sk" 3000 "admin") 5000
      = .ok ⟨1, "admin", "h1"⟩ := by
  refine ⟨?_, ?_, ?_, ?_, ?_⟩
  · exact (C4_authorize "sk" userDB 5000).1 _ (by decide)
  · exact (C4_authorize "sk" userDB 5000).2.1 _ (by decide)
  · exact (C4_authorize "sk" userDB 5000).2.2.1 _ rfl
  · exact (C4_authorize "sk" userDB 5000).2.2.2.1 _ "ghost" rfl rfl
  · exact (C4_authorize "sk" userDB 5000).2.2.2.2 3000 "admin" _ rfl (by decide)

/-! ### Claim C5 -/

/-- C5 against the code: a login with an unknown username or a password
that does not verify is rejected — but the caller sees status 500 with
detail "401: Invalid credentials", NOT the claimed 401: the endpoint's
blanket `except Exception` catches its own `HTTPException(401, ...)` and
re-raises it as a 500. -/
theorem C5_login_invalid (verifyF : String → String → Bool)
    (secretKey : String) (db : DBState) (u p : String) (now : Nat)
    (h : get_user db u = none ∨
      ∃ usr, get_user db u = some usr ∧ verifyF p usr.password_hash = false) :
    login verifyF secretKey db u p now
      = .error ⟨500, "401: Invalid credentials"⟩ := by
  have hauth : authenticate_user verifyF db u p = false := by
    rcases h with h | ⟨usr, husr, hv⟩
    · rw [authenticate_user.eq_def, h]
    · rw [authenticate_user.eq_def, husr]
      exact hv
  rw [login, hauth]
  rfl

/-- Witness for C5: unknown user on an empty database, and a known user
with a failing password check. -/
theorem C5_witness :
    login (fun _ _ => false) "sk" emptyDB "ghost" "pw" 5000
      = .error ⟨500, "401: Invalid credentials"⟩ ∧
    login (fun _ _ => false) "sk" userDB "admin" "wrong" 5000
      = .error ⟨500, "401: Invalid credentials"⟩ :=
  ⟨C5_login_invalid _ "sk" emptyDB "ghost" "pw" 5000 (Or.inl rfl),
   C5_login_invalid _ "sk" userDB "admin" "wrong" 5000
     (Or.inr ⟨⟨1, "admin", "h1"⟩, rfl, rfl⟩)⟩

/-! ### Claim C6 -/

/-- C6: a successful login returns a bearer token signed with the
configured secret, whose `sub` claim is the authenticated username and
whose expiry is 60 minutes after issuance. -/
theorem C6_login_token (verifyF : String → String → Bool)
    (secretKey : String) (db : DBState) (u p : String) (now : Nat)
    (h : authenticate_user verifyF db u p = true) :
    ∃ tok,
      login verifyF secretKey db u p now
        = .ok { access_token := tok, token_type := "bearer" } ∧
      tok.key = secretKey ∧
      tok.payload.sub = some u ∧
      tok.payload.exp = now + ACCESS_TOKEN_EXPIRE_MINUTES * 60 := by
  refine ⟨create_access_token secretKey now u, ?_, rfl, rfl, rfl⟩
  rw [login, h]
  rfl

/-- Witness for C6: a successful login of the stored user. -/
theorem C6_witness :
    ∃ tok,
      login (fun _ _ => true) "sk" userDB "admin" "pw" 7200
        = .ok { access_token := tok, token_type := "bearer" } ∧
      tok.key = "sk" ∧
      tok.payload.sub = some "admin" ∧
      tok.payload.exp = 7200 + ACCESS_TOKEN_EXPIRE_MINUTES * 60 :=
  C6_login_token (fun _ _ => true) "sk" userDB "admin" "pw" 7200 rfl

/-! ### Claims C7, C8, C9: update and delete -/

/-- The database state `update_inspection` leaves behind on success. -/
theorem update_inspection_ok (db : DBState) (inspection_id : Nat)
    (d : InspectionData) (hv ps : List (Option String))
    (hhv : pgParseTextArray (format_array_for_postgres d.hvac_type) = some hv)
    (hps : pgParseTextArray (format_array_for_postgres d.power_source) = some ps) :
    update_inspection db inspection_id d =
      .ok ({ db with inspections := db.inspections.map (fun row =>
              if row.id = inspection_id then dataToRow inspection_id d hv ps
              else row) },
        get_inspection
          { db with inspections := db.inspections.map (fun row =>
              if row.id = inspection_id then dataToRow inspection_id d hv ps
              else row) }
          inspection_id) := by
  rw [update_inspection.eq_def, hhv, hps]

/-- After overwriting the matching rows, `find?` by id yields the new row. -/
theorem find_map_update (l : List StoredInspection) (inspection_id : Nat)
    (newRow : StoredInspection) (hid : newRow.id = inspection_id) :
    ∀ row0, l.find? (fun i => i.id == inspection_id) = some row0 →
      (l.map (fun row => if row.id = inspection_id then newRow else row)).find?
        (fun i => i.id == inspection_id) = some newRow := by
  induction l with
  | nil => intro row0 h; simp [List.find?] at h
  | cons a as ih =>
    intro row0 h
    by_cases ha : a.id = inspection_id
    · rw [List.map_cons, if_pos ha]
      exact List.find?_cons_of_pos _ (by simp [hid])
    · rw [List.map_cons, if_neg ha,
        List.find?_cons_of_neg _ (by simp [ha])]
      rw [List.find?_cons_of_neg _ (by simp [ha])] at h
      exact ih row0 h

/-- C7 against the code: updating an existing id overwrites every mutable
column of that row (its id untouched) and leaves all other rows and the
users table unchanged — but updating an absent id yields status 500 with
detail "404: Inspection not found", NOT the claimed 404: the endpoint's
blanket `except Exception` swallows its own `HTTPException(404, ...)`. -/
theorem C7_update_overwrites (db : DBState) (inspection_id : Nat)
    (r : InspectionRecord) :
    (get_inspection db inspection_id = none →
      update_inspection_endpoint db inspection_id r
        = (db, .error ⟨500, "404: Inspection not found"⟩)) ∧
    (∀ row0, get_inspection db inspection_id = some row0 →
      ∃ db2,
        update_inspection_endpoint db inspection_id r
          = (db2, .ok { status := "updated", id := inspection_id, record := r }) ∧
        db2.users = db.users ∧
        db2.inspections = db.inspections.map (fun row =>
          if row.id = inspection_id then
            dataToRow inspection_id (recordToData r)
              ((r.hvac_type.map hvacStr).map Option.some)
              ((r.power_source.map powerStr).map Option.some)
          else row) ∧
        get_inspection db2 inspection_id
          = some (dataToRow inspection_id (recordToData r)
              ((r.hvac_type.map hvacStr).map Option.some)
              ((r.power_source.map powerStr).map Option.some))) := by
  constructor
  · intro h
    rw [update_inspection_endpoint.eq_def, h]
    rfl
  · intro row0 h
    have hupd := update_inspection_ok db inspection_id (recordToData r)
      ((r.hvac_type.map hvacStr).map Option.some)
      ((r.power_source.map powerStr).map Option.some)
      (recordData_hvac r) (recordData_power r)
    set newRow := dataToRow inspection_id (recordToData r)
      ((r.hvac_type.map hvacStr).map Option.some)
      ((r.power_source.map powerStr).map Option.some) with hnewRow
    set db2 : DBState := { db with inspections := db.inspections.map (fun row =>
      if row.id = inspection_id then newRow else row) } with hdb2
    have hget2 : get_inspection db2 inspection_id = some newRow :=
      find_map_update db.inspections inspection_id newRow rfl row0 h
    have hupd2 : update_inspection db inspection_id (recordToData r)
        = .ok (db2, some newRow) := by
      rw [hupd, hget2]
    refine ⟨db2, ?_, rfl, rfl, hget2⟩
    rw [update_inspection_endpoint.eq_def, h, hupd2]
    rfl

/-- A database seeded with the sample record (its row has id 1). -/
def seededDB : DBState := (create_inspection_endpoint emptyDB sampleRecord).1

/-- The row the sample record stores under id 1. -/
def updatedSampleRow : StoredInspection :=
  dataToRow 1 (recordToData sampleRecord)
    ((sampleRecord.hvac_type.map hvacStr).map Option.some)
    ((sampleRecord.power_source.map powerStr).map Option.some)

/-- Witness for C7: updating the absent id 7 on the empty database, and
updating the existing id 1 on the seeded database. -/
theorem C7_witness :
    update_inspection_endpoint emptyDB 7 sampleRecord
      = (emptyDB, .error ⟨500, "404: Inspection not found"⟩) ∧
    ∃ db2,
      update_inspection_endpoint seededDB 1 sampleRecord
        = (db2, .ok { status := "updated", id := 1, record := sampleRecord }) ∧
      db2.users = seededDB.users ∧
      db2.inspections = seededDB.inspections.map (fun row =>
        if row.id = 1 then updatedSampleRow else row) ∧
      get_inspection db2 1 = some updatedSampleRow :=
  ⟨(C7_update_overwrites emptyDB 7 sampleRecord).1 rfl,
   (C7_update_overwrites seededDB 1 sampleRecord).2 _ rfl⟩

/-- Evaluation of `delete_inspection_endpoint` on an absent id. -/
theorem delete_endpoint_absent (db : DBState) (inspection_id : Nat)
    (h : get_inspection db inspection_id = none) :
    delete_inspection_endpoint db inspection_id
      = (db, .error ⟨500, "404: Inspection not found"⟩) := by
  rw [delete_inspection_endpoint.eq_def, h]
  rfl

/-- Evaluation of `delete_inspection_endpoint` on a present id. -/
theorem delete_endpoint_present (db : DBState) (inspection_id : Nat)
    (row0 : StoredInspection)
    (h : get_inspection db inspection_id = some row0) :
    delete_inspection_endpoint db inspection_id
      = ({ db with inspections :=
            db.inspections.filter (fun row => row.id ≠ inspection_id) },
         .ok { status := "deleted", id := inspection_id }) := by
  rw [delete_inspection_endpoint.eq_def, h]
  rfl

/-- No row with the deleted id survives the filter. -/
theorem find_after_filter (l : List StoredInspection) (inspection_id : Nat) :
    (l.filter (fun row => row.id ≠ inspection_id)).find?
      (fun i => i.id == inspection_id) = none := by
  apply List.find?_eq_none.mpr
  intro x hx
  have hxne := (List.mem_filter.mp hx).2
  simp only [ne_eq, decide_not, Bool.not_eq_true', decide_eq_false_iff_not] at hxne
  simp [hxne]

/-- C8 against the code: deleting an existing id removes exactly that row,
so a subsequent read finds nothing — but both deleting an absent id and
reading the deleted id back yield status 500 with detail
"404: Inspection not found", NOT the claimed 404: in both endpoints the
blanket `except Exception` swallows the deliberate `HTTPException(404)`. -/
theorem C8_delete_removes (db : DBState) (inspection_id : Nat) :
    (get_inspection db inspection_id = none →
      delete_inspection_endpoint db inspection_id
        = (db, .error ⟨500, "404: Inspection not found"⟩)) ∧
    (∀ row0, get_inspection db inspection_id = some row0 →
      ∃ db2,
        delete_inspection_endpoint db inspection_id
          = (db2, .ok { status := "deleted", id := inspection_id }) ∧
        db2.users = db.users ∧
        db2.inspections
          = db.inspections.filter (fun row => row.id ≠ inspection_id) ∧
        get_inspection db2 inspection_id = none ∧
        get_inspection_by_id_endpoint db2 inspection_id
          = .error ⟨500, "404: Inspection not found"⟩) := by
  constructor
  · exact delete_endpoint_absent db inspection_id
  · intro row0 h
    have hnone : get_inspection
        { db with inspections :=
            db.inspections.filter (fun row => row.id ≠ inspection_id) }
        inspection_id = none :=
      find_after_filter db.inspections inspection_id
    refine ⟨_, delete_endpoint_present db inspection_id row0 h, rfl, rfl,
      hnone, ?_⟩
    rw [get_inspection_by_id_endpoint.eq_def, hnone]
    rfl

/-- Witness for C8: deleting the absent id 7 on the empty database, and
deleting the existing id 1 on the seeded database. -/
theorem C8_witness :
    delete_inspection_endpoint emptyDB 7
      = (emptyDB, .error ⟨500, "404: Inspection not found"⟩) ∧
    ∃ db2,
      delete_inspection_endpoint seededDB 1
        = (db2, .ok { status := "deleted", id := 1 }) ∧
      db2.users = seededDB.users ∧
      db2.inspections = seededDB.inspections.filter (fun row => row.id ≠ 1) ∧
      get_inspection db2 1 = none ∧
      get_inspection_by_id_endpoint db2 1
        = .error ⟨500, "404: Inspection not found"⟩ :=
  ⟨(C8_delete_removes emptyDB 7).1 rfl, (C8_delete_removes seededDB 1).2 _ rfl⟩

/-- C9: the persistence-layer delete helper returns `True` for every id
(it never reports "not found" itself); the not-found outcome of the public
delete operation comes solely from the endpoint's existence pre-check, and
for an existing id the helper's `True` means the endpoint's
"Failed to delete inspection" branch is unreachable. -/
theorem C9_delete_helper_true (db : DBState) (inspection_id : Nat) :
    (delete_inspection db inspection_id).2 = true ∧
    (get_inspection db inspection_id = none →
      delete_inspection_endpoint db inspection_id
        = (db, .error ⟨500, "404: Inspection not found"⟩)) ∧
    (∀ row0, get_inspection db inspection_id = some row0 →
      (delete_inspection_endpoint db inspection_id).2
        = .ok { status := "deleted", id := inspection_id }) := by
  refine ⟨rfl, delete_endpoint_absent db inspection_id, ?_⟩
  intro row0 h
  rw [delete_endpoint_present db inspection_id row0 h]

/-- Witness for C9 on the seeded database (present id 1, absent id 7). -/
theorem C9_witness :
    (delete_inspection seededDB 7).2 = true ∧
    delete_inspection_endpoint seededDB 7
      = (seededDB, .error ⟨500, "404: Inspection not found"⟩) ∧
    (delete_inspection_endpoint seededDB 1).2
      = .ok { status := "deleted", id := 1 } :=
  ⟨(C9_delete_helper_true seededDB 7).1,
   (C9_delete_helper_true seededDB 7).2.1 rfl,
   (C9_delete_helper_true seededDB 1).2.2 _ rfl⟩

/-! ### Claim C10 -/

/-- C10: `create_default_user` is idempotent — a second run with the same
username changes nothing, and (given the users table held at most one row
with that username, as its unique constraint guarantees) exactly one such
row exists after any positive number of runs. -/
theorem C10_default_user_idempotent (hashF : String → String → String)
    (salt : String) (db : DBState) (u p p2 : String)
    (hcount : (db.users.filter (fun row => row.username == u)).length ≤ 1) :
    create_default_user hashF salt (create_default_user hashF salt db u p) u p2
      = create_default_user hashF salt db u p ∧
    ((create_default_user hashF salt db u p).users.filter
        (fun row => row.username == u)).length = 1 := by
  cases hdb : get_user db u with
  | some usr =>
    have h1 : create_default_user hashF salt db u p = db := by
      rw [create_default_user.eq_def, hdb]
    constructor
    · rw [h1, create_default_user.eq_def, hdb]
    · rw [h1]
      have hfind : db.users.find? (fun row => row.username == u) = some usr :=
        hdb
      have hp := List.find?_some hfind
      have hmem : usr ∈ db.users.filter (fun row => row.username == u) :=
        List.mem_filter.mpr ⟨List.mem_of_find?_eq_some hfind, hp⟩
      have hpos : 0 < (db.users.filter (fun row => row.username == u)).length :=
        List.length_pos.mpr (List.ne_nil_of_mem hmem)
      omega
  | none =>
    set db2 : DBState := { db with
      users := db.users ++ [⟨db.nextUserId, u, hashF salt p⟩],
      nextUserId := db.nextUserId + 1 } with hdb2
    have h1 : create_default_user hashF salt db u p = db2 := by
      rw [create_default_user.eq_def, hdb]
      rfl
    have hget2 : get_user db2 u = some ⟨db.nextUserId, u, hashF salt p⟩ :=
      find_snoc_fresh (fun x : UserRow => x.username == u) db.users
        (⟨db.nextUserId, u, hashF salt p⟩ : UserRow) hdb (by simp)
    constructor
    · rw [h1, create_default_user.eq_def, hget2]
    · rw [h1]
      show ((db.users ++ [(⟨db.nextUserId, u, hashF salt p⟩ : UserRow)]).filter
        (fun row => row.username == u)).length = 1
      rw [List.filter_append]
      have hnil : db.users.filter (fun row => row.username == u) = [] := by
        rw [List.filter_eq_nil_iff]
        exact List.find?_eq_none.mp hdb
      rw [hnil]
      simp

/-- Witness for C10: seeding "admin" twice into the empty database. -/
theorem C10_witness :
    create_default_user (fun salt p => salt ++ "$" ++ p) "s1"
        (create_default_user (fun salt p => salt ++ "$" ++ p) "s1" emptyDB
          "admin" "admin") "admin" "admin"
      = create_default_user (fun salt p => salt ++ "$" ++ p) "s1" emptyDB
          "admin" "admin" ∧
    ((create_default_user (fun salt p => salt ++ "$" ++ p) "s1" emptyDB
        "admin" "admin").users.filter
          (fun row => row.username == "admin")).length = 1 :=
  C10_default_user_idempotent (fun salt p => salt ++ "$" ++ p) "s1" emptyDB
    "admin" "admin" "admin" (by decide)
